import Mathlib

/-!
Shallow embedding of `ddns.go` (package main): a dynamic-DNS updater that
resolves the machine's public IP over HTTP, lists the DNS records of a
domain, and converges the record whose (Type, RR) matches the configured
target to the current IP.

The embedding models:
  * `getPublicIP`     — IP resolution over an abstract HTTP response;
  * `updateDNSRecord` — the reconciliation function, with the remote DNS
    client abstracted as a `Gateway` oracle and the mutating SDK calls
    (`UpdateDomainRecord`, `AddDomainRecord`) recorded in a trace;
  * `getSleepDuration` and the sleep-substitution logic of `main`;
  * the per-cycle log line `main` writes to the file logger, and one
    iteration of the scheduler loop.
-/

namespace DDns

/-- A DNS record as returned by `DescribeDomainRecords`: identifier,
RR (host label), record type, and value (an IP string).  The Go field
`Type` keeps its name, quoted because `Type` is reserved in Lean. -/
structure DNSRecord where
  RecordId : String
  RR : String
  «Type» : String
  Value : String
deriving DecidableEq, Repr

/-- Oracle for the remote DNS provider (the `alidns.Client`): the result of
`DescribeDomainRecords` (an error message or the record list), and the
error results of `UpdateDomainRecord` / `AddDomainRecord` (`none` means the
call succeeds).  At most one mutating call happens per run, so one
pre-chosen result per operation is faithful. -/
structure Gateway where
  listRecords : Except String (List DNSRecord)
  updateResult : Option String
  createResult : Option String
deriving Repr

/-- A mutating remote call issued by `updateDNSRecord`, with the arguments
the Go code puts into the request (`UpdateDomainRecordRequest` carries
RecordId, RR, Type, Value; `AddDomainRecordRequest` carries DomainName,
Type, RR, Value). -/
inductive Call where
  | update (recordId rr ty value : String)
  | create (domainName ty rr value : String)
deriving DecidableEq, Repr

/-- The `error` value returned by `updateDNSRecord`.  `noUpdateNeeded` is
the sentinel `ErrNoUpdateNeeded`; the provider errors from list / update /
create are surfaced verbatim (the message), tagged here by the call that
produced them; `notFound` is the final `fmt.Errorf("DNS record not found")`. -/
inductive GoErr where
  | noUpdateNeeded
  | listErr (msg : String)
  | updateErr (msg : String)
  | createErr (msg : String)
  | notFound
deriving DecidableEq, Repr

/-- The `for _, record := range records` loop of `updateDNSRecord`:
`some result` means the loop body executed `return` with that result
(result = the returned error plus the trace of mutating calls); `none`
means the loop ran to completion without returning. -/
def loopScan (updateResult : Option String) (publicIP recordType rr : String) :
    List DNSRecord → Option (Option GoErr × List Call)
  | [] => none
  | record :: rest =>
    if record.«Type» = recordType ∧ record.RR = rr then
      if record.Value = publicIP then
        some (some .noUpdateNeeded, [])
      else
        some (updateResult.map GoErr.updateErr,
          [Call.update record.RecordId record.RR record.«Type» publicIP])
    else
      loopScan updateResult publicIP recordType rr rest

/-- `updateDNSRecord(client, domainName, publicIP, recordType, rr)`:
returns the Go error value (`none` = nil) together with the trace of
mutating remote calls.  `foundRecord` is declared and never assigned in
the source, so it is bound to `false` here exactly as in the Go code. -/
def updateDNSRecord (g : Gateway) (domainName publicIP recordType rr : String) :
    Option GoErr × List Call :=
  match g.listRecords with
  | .error msg => (some (.listErr msg), [])
  | .ok records =>
    let foundRecord := false
    match loopScan g.updateResult publicIP recordType rr records with
    | some result => result
    | none =>
      if !foundRecord then
        (g.createResult.map GoErr.createErr,
          [Call.create domainName recordType rr publicIP])
      else
        (some .notFound, [])

/-- How `main` renders an `updateDNSRecord` error with `%v`:
`ErrNoUpdateNeeded` prints as its message, provider errors verbatim. -/
def errMsg : GoErr → String
  | .noUpdateNeeded => "No update needed"
  | .listErr msg => msg
  | .updateErr msg => msg
  | .createErr msg => msg
  | .notFound => "DNS record not found"

/-- The line `main` writes to the file logger (the logging sink) for one
reconciliation result: nothing when the error is `ErrNoUpdateNeeded`,
`"Failed to update DNS record: <err>"` for any other error, and
`"DNS record updated successfully"` when the error is nil. -/
def cycleLogLine : Option GoErr → Option String
  | some .noUpdateNeeded => none
  | some e => some ("Failed to update DNS record: " ++ errMsg e)
  | none => some "DNS record updated successfully"

/-- `getSleepDuration(delay, timeUnit)`: a `time.Duration` is an integer
count of nanoseconds.  Durations are modelled as unbounded `Int`; Go wraps
at 64 bits, but no claim here involves a delay anywhere near that range. -/
def getSleepDuration (delay : Int) (timeUnit : String) : Except String Int :=
  match timeUnit with
  | "second" => .ok (delay * 1000000000)
  | "minute" => .ok (delay * 60000000000)
  | "hour" => .ok (delay * 3600000000000)
  | _ => .error "unknown time unit"

/-- The sleep duration `main` actually passes to `time.Sleep`: the result
of `getSleepDuration`, with `1 * time.Minute` substituted only when
`getSleepDuration` returns an error. -/
def mainSleepDuration (delay : Int) (timeUnit : String) : Int :=
  match getSleepDuration delay timeUnit with
  | .error _ => 60000000000
  | .ok d => d

/-- Observable effects of one iteration of `main`'s `for` loop:
whether `updateDNSRecord` was invoked, the mutating remote calls it made,
the line written to the file logger (the logging sink), and the duration
passed to `time.Sleep` at the end of the iteration. -/
structure CycleResult where
  reconcilerInvoked : Bool
  calls : List Call
  logLine : Option String
  sleepNanos : Int
deriving DecidableEq, Repr

/-- One iteration of the scheduler loop in `main`: resolve the public IP
(`ipResult` is the outcome of `getPublicIP`); on failure write
`"Failed to get public IP: <err>"` to the file logger and skip
reconciliation; on success run `updateDNSRecord` and log its result; in
both cases fall through to `getSleepDuration` and `time.Sleep`. -/
def runCycle (g : Gateway) (ipResult : Except String String)
    (domainName recordType rr : String) (delay : Int) (timeUnit : String) :
    CycleResult :=
  match ipResult with
  | .error msg =>
    { reconcilerInvoked := false
      calls := []
      logLine := some ("Failed to get public IP: " ++ msg)
      sleepNanos := mainSleepDuration delay timeUnit }
  | .ok publicIP =>
    let r := updateDNSRecord g domainName publicIP recordType rr
    { reconcilerInvoked := true
      calls := r.2
      logLine := cycleLogLine r.1
      sleepNanos := mainSleepDuration delay timeUnit }

/-- A JSON value as far as `getPublicIP` inspects it: the type assertion
`result["ip"].(string)` only distinguishes strings from everything else. -/
inductive JsonValue where
  | str (s : String)
  | nonString
deriving DecidableEq, Repr

/-- The HTTP response body as `json.NewDecoder(resp.Body).Decode(&result)`
sees it: either decoding into `map[string]interface{}` fails, or it yields
a JSON object given by its entries (keys unique, decoder order). -/
inductive HttpBody where
  | decodeFailure (msg : String)
  | obj (fields : List (String × JsonValue))
deriving DecidableEq, Repr

/-- The outcome of `http.Get`: the request itself fails, or a response
arrives with a status code and a body. -/
inductive HttpResult where
  | requestError (msg : String)
  | response (status : Nat) (body : HttpBody)
deriving DecidableEq, Repr

/-- The error values `getPublicIP` can return: the transport error from
`http.Get`, the formatted non-200-status error, the JSON decode error, or
`errors.New("IP address not found in JSON response")`. -/
inductive IPError where
  | requestFailed (msg : String)
  | httpStatus (status : Nat)
  | decodeError (msg : String)
  | malformedResponse
deriving DecidableEq, Repr

/-- `getPublicIP(apiURL)` over an abstract HTTP outcome: propagate a
request error; reject any status other than 200 (`http.StatusOK`);
propagate a JSON decode error; then require `result["ip"]` to exist and be
a string, returning it. -/
def getPublicIP : HttpResult → Except IPError String
  | .requestError msg => .error (.requestFailed msg)
  | .response status body =>
    if status ≠ 200 then
      .error (.httpStatus status)
    else
      match body with
      | .decodeFailure msg => .error (.decodeError msg)
      | .obj fields =>
        match fields.lookup "ip" with
        | some (.str ip) => .ok ip
        | _ => .error .malformedResponse

end DDns

namespace DDns

/-- Sanity example: one matching record with the same value is a no-op. -/
example :
    updateDNSRecord ⟨.ok [⟨"id1", "*", "A", "1.2.3.4"⟩], none, none⟩
      "example.com" "1.2.3.4" "A" "*" = (some .noUpdateNeeded, []) := by decide

/-- Sanity example: one matching record with a different value updates. -/
example :
    updateDNSRecord ⟨.ok [⟨"id1", "*", "A", "1.2.3.4"⟩], none, none⟩
      "example.com" "5.6.7.8" "A" "*"
      = (none, [Call.update "id1" "*" "A" "5.6.7.8"]) := by decide

/-- Sanity example: empty list creates. -/
example :
    updateDNSRecord ⟨.ok [], none, none⟩ "example.com" "9.9.9.9" "A" "*"
      = (none, [Call.create "example.com" "A" "*" "9.9.9.9"]) := by decide

/-- The scan loop skips a block of records none of which matches the
selection key. -/
lemma loopScan_append_of_no_match (u : Option String) (ip ty rr : String)
    (pre l : List DNSRecord)
    (hpre : ∀ x ∈ pre, ¬(x.«Type» = ty ∧ x.RR = rr)) :
    loopScan u ip ty rr (pre ++ l) = loopScan u ip ty rr l := by
  induction pre with
  | nil => rfl
  | cons x xs ih =>
    have hx : ¬(x.«Type» = ty ∧ x.RR = rr) := hpre x (by simp)
    simp only [List.cons_append, loopScan, if_neg hx]
    exact ih (fun y hy => hpre y (by simp [hy]))

/-- The scan loop runs to completion when no record matches. -/
lemma loopScan_eq_none_of_no_match (u : Option String) (ip ty rr : String)
    (l : List DNSRecord) (h : ∀ x ∈ l, ¬(x.«Type» = ty ∧ x.RR = rr)) :
    loopScan u ip ty rr l = none := by
  induction l with
  | nil => rfl
  | cons x xs ih =>
    simp only [loopScan, if_neg (h x (by simp))]
    exact ih (fun y hy => h y (by simp [hy]))

/-- Characterization of `updateDNSRecord` on a list whose first matching
record is `r`: the result depends only on `r` (and the update oracle),
never on the records after it. -/
lemma updateDNSRecord_first_match (u c : Option String) (dom ip ty rr : String)
    (pre : List DNSRecord) (r : DNSRecord) (rest : List DNSRecord)
    (hpre : ∀ x ∈ pre, ¬(x.«Type» = ty ∧ x.RR = rr))
    (hty : r.«Type» = ty) (hrr : r.RR = rr) :
    updateDNSRecord ⟨.ok (pre ++ r :: rest), u, c⟩ dom ip ty rr
      = if r.Value = ip then (some GoErr.noUpdateNeeded, [])
        else (u.map GoErr.updateErr, [Call.update r.RecordId r.RR r.«Type» ip]) := by
  by_cases hv : r.Value = ip
  · have hscan : loopScan u ip ty rr (pre ++ r :: rest)
        = some (some GoErr.noUpdateNeeded, []) := by
      rw [loopScan_append_of_no_match u ip ty rr pre _ hpre]
      simp only [loopScan]
      rw [if_pos ⟨hty, hrr⟩, if_pos hv]
    rw [if_pos hv]
    simp [updateDNSRecord, hscan]
  · have hscan : loopScan u ip ty rr (pre ++ r :: rest)
        = some (u.map GoErr.updateErr,
            [Call.update r.RecordId r.RR r.«Type» ip]) := by
      rw [loopScan_append_of_no_match u ip ty rr pre _ hpre]
      simp only [loopScan]
      rw [if_pos ⟨hty, hrr⟩, if_neg hv]
    rw [if_neg hv]
    simp [updateDNSRecord, hscan]

/-- C1 (counterexample): a record list can contain a matching record whose
value equals the current IP and still trigger an update, because an
earlier matching record with a different value is acted on first.  Here
the list holds records "id1" (value 9.9.9.9) and "id2" (value 1.2.3.4),
the current IP is 1.2.3.4, yet `updateDNSRecord` issues an
`UpdateDomainRecord` call for "id1" instead of the claimed no-op. -/
theorem updateDNSRecord_contains_equal_not_noop :
    (∃ r ∈ [DNSRecord.mk "id1" "*" "A" "9.9.9.9",
            DNSRecord.mk "id2" "*" "A" "1.2.3.4"],
        r.«Type» = "A" ∧ r.RR = "*" ∧ r.Value = "1.2.3.4")
    ∧ updateDNSRecord
        ⟨.ok [⟨"id1", "*", "A", "9.9.9.9"⟩, ⟨"id2", "*", "A", "1.2.3.4"⟩],
          none, none⟩ "example.com" "1.2.3.4" "A" "*"
      = (none, [Call.update "id1" "*" "A" "1.2.3.4"])
    ∧ ¬((updateDNSRecord
          ⟨.ok [⟨"id1", "*", "A", "9.9.9.9"⟩, ⟨"id2", "*", "A", "1.2.3.4"⟩],
            none, none⟩ "example.com" "1.2.3.4" "A" "*").1
          = some GoErr.noUpdateNeeded
        ∧ (updateDNSRecord
            ⟨.ok [⟨"id1", "*", "A", "9.9.9.9"⟩, ⟨"id2", "*", "A", "1.2.3.4"⟩],
              none, none⟩ "example.com" "1.2.3.4" "A" "*").2 = []) := by
  decide

/-- C1 (amended): whenever the FIRST record matching the configured
(recordType, RR) selection key has value equal to the current IP,
`updateDNSRecord` returns `ErrNoUpdateNeeded` and performs zero mutating
remote calls. -/
theorem updateDNSRecord_first_match_equal_noop (u c : Option String)
    (dom ip ty rr : String) (pre : List DNSRecord) (r : DNSRecord)
    (rest : List DNSRecord)
    (hpre : ∀ x ∈ pre, ¬(x.«Type» = ty ∧ x.RR = rr))
    (hty : r.«Type» = ty) (hrr : r.RR = rr) (hv : r.Value = ip) :
    updateDNSRecord ⟨.ok (pre ++ r :: rest), u, c⟩ dom ip ty rr
      = (some GoErr.noUpdateNeeded, []) := by
  rw [updateDNSRecord_first_match u c dom ip ty rr pre r rest hpre hty hrr,
    if_pos hv]

/-- Witness for the amended C1: a non-matching TXT record followed by a
matching A record whose value equals the current IP yields a no-op. -/
theorem updateDNSRecord_first_match_equal_noop_witness :
    updateDNSRecord
      ⟨.ok ([DNSRecord.mk "idT" "www" "TXT" "x"]
          ++ DNSRecord.mk "id1" "*" "A" "1.2.3.4" :: []), none, none⟩
      "example.com" "1.2.3.4" "A" "*" = (some GoErr.noUpdateNeeded, []) :=
  updateDNSRecord_first_match_equal_noop none none "example.com" "1.2.3.4"
    "A" "*" [⟨"idT", "www", "TXT", "x"⟩] ⟨"id1", "*", "A", "1.2.3.4"⟩ []
    (by decide) rfl rfl rfl

/-- C2 (counterexample): a record list can contain a matching record whose
value differs from the current IP while `updateDNSRecord` performs no
`UpdateDomainRecord` call at all, because an earlier matching record with
the equal value short-circuits to the no-op. -/
theorem updateDNSRecord_contains_differing_no_update :
    (∃ r ∈ [DNSRecord.mk "id1" "*" "A" "1.2.3.4",
            DNSRecord.mk "id2" "*" "A" "9.9.9.9"],
        r.«Type» = "A" ∧ r.RR = "*" ∧ r.Value ≠ "1.2.3.4")
    ∧ updateDNSRecord
        ⟨.ok [⟨"id1", "*", "A", "1.2.3.4"⟩, ⟨"id2", "*", "A", "9.9.9.9"⟩],
          none, none⟩ "example.com" "1.2.3.4" "A" "*"
      = (some GoErr.noUpdateNeeded, []) := by
  decide

/-- C2 (amended): whenever the FIRST record matching the selection key has
a value different from the current IP, `updateDNSRecord` makes exactly one
`UpdateDomainRecord` call, carrying that record's identifier with its RR
and Type preserved and the new IP as value; the returned error is nil on
success (outcome Updated) and the update error on failure. -/
theorem updateDNSRecord_first_match_differs_updates (u c : Option String)
    (dom ip ty rr : String) (pre : List DNSRecord) (r : DNSRecord)
    (rest : List DNSRecord)
    (hpre : ∀ x ∈ pre, ¬(x.«Type» = ty ∧ x.RR = rr))
    (hty : r.«Type» = ty) (hrr : r.RR = rr) (hv : r.Value ≠ ip) :
    updateDNSRecord ⟨.ok (pre ++ r :: rest), u, c⟩ dom ip ty rr
      = (u.map GoErr.updateErr, [Call.update r.RecordId r.RR r.«Type» ip]) := by
  rw [updateDNSRecord_first_match u c dom ip ty rr pre r rest hpre hty hrr,
    if_neg hv]

/-- Witness for the amended C2: a matching record with value 1.2.3.4 and a
new IP 5.6.7.8 (update oracle failing with "rate limited") produces exactly
one update call and the update error. -/
theorem updateDNSRecord_first_match_differs_updates_witness :
    updateDNSRecord
      ⟨.ok ([] ++ DNSRecord.mk "id1" "*" "A" "1.2.3.4" :: []),
        some "rate limited", none⟩ "example.com" "5.6.7.8" "A" "*"
      = (some (GoErr.updateErr "rate limited"),
          [Call.update "id1" "*" "A" "5.6.7.8"]) :=
  updateDNSRecord_first_match_differs_updates (some "rate limited") none
    "example.com" "5.6.7.8" "A" "*" [] ⟨"id1", "*", "A", "1.2.3.4"⟩ []
    (by decide) rfl rfl (by decide)

/-- C3 (confirmed): when no record matches the selection key — in
particular for the empty list — `updateDNSRecord` makes exactly one
`AddDomainRecord` call with the configured domain, record type, RR and the
current IP; the returned error is nil on success (outcome Created) and the
create error on failure. -/
theorem updateDNSRecord_no_match_creates (u c : Option String)
    (dom ip ty rr : String) (records : List DNSRecord)
    (h : ∀ x ∈ records, ¬(x.«Type» = ty ∧ x.RR = rr)) :
    updateDNSRecord ⟨.ok records, u, c⟩ dom ip ty rr
      = (c.map GoErr.createErr, [Call.create dom ty rr ip]) := by
  have hscan := loopScan_eq_none_of_no_match u ip ty rr records h
  simp [updateDNSRecord, hscan]

/-- Witness for C3: on a list with only a non-matching record, a create
call is issued and the create oracle's failure is surfaced. -/
theorem updateDNSRecord_no_match_creates_witness :
    updateDNSRecord
      ⟨.ok [DNSRecord.mk "idT" "www" "TXT" "x"], none, some "quota"⟩
      "example.com" "9.9.9.9" "A" "*"
      = (some (GoErr.createErr "quota"),
          [Call.create "example.com" "A" "*" "9.9.9.9"]) :=
  updateDNSRecord_no_match_creates none (some "quota") "example.com"
    "9.9.9.9" "A" "*" [⟨"idT", "www", "TXT", "x"⟩] (by decide)

/-- C6 (confirmed): when `DescribeDomainRecords` fails, `updateDNSRecord`
returns that error and the trace of mutating calls is empty — neither
`UpdateDomainRecord` nor `AddDomainRecord` is invoked. -/
theorem updateDNSRecord_list_failure_no_calls (msg : String)
    (u c : Option String) (dom ip ty rr : String) :
    updateDNSRecord ⟨.error msg, u, c⟩ dom ip ty rr
      = (some (GoErr.listErr msg), []) := rfl

/-- C9 (confirmed): `updateDNSRecord` acts on the first record (in
provider-returned order) whose (Type, RR) equals the selection key; the
result is fully determined by that record, so the records after the first
match never influence the decision or the mutating call's arguments. -/
theorem updateDNSRecord_first_match_determines (u c : Option String)
    (dom ip ty rr : String) (pre : List DNSRecord) (r : DNSRecord)
    (rest : List DNSRecord)
    (hpre : ∀ x ∈ pre, ¬(x.«Type» = ty ∧ x.RR = rr))
    (hty : r.«Type» = ty) (hrr : r.RR = rr) :
    updateDNSRecord ⟨.ok (pre ++ r :: rest), u, c⟩ dom ip ty rr
      = if r.Value = ip then (some GoErr.noUpdateNeeded, [])
        else (u.map GoErr.updateErr, [Call.update r.RecordId r.RR r.«Type» ip]) :=
  updateDNSRecord_first_match u c dom ip ty rr pre r rest hpre hty hrr

/-- Witness for C9: with a second matching record "id2" after the first
match "id1", the update targets "id1" and "id2" plays no role. -/
theorem updateDNSRecord_first_match_determines_witness :
    updateDNSRecord
      ⟨.ok ([] ++ DNSRecord.mk "id1" "*" "A" "1.2.3.4"
          :: [DNSRecord.mk "id2" "*" "A" "9.9.9.9"]), none, none⟩
      "example.com" "5.6.7.8" "A" "*"
      = (none, [Call.update "id1" "*" "A" "5.6.7.8"]) :=
  (updateDNSRecord_first_match_determines none none "example.com" "5.6.7.8"
    "A" "*" [] ⟨"id1", "*", "A", "1.2.3.4"⟩ [⟨"id2", "*", "A", "9.9.9.9"⟩]
    (by decide) rfl rfl).trans (by decide)

/-- Any result the scan loop returns from inside the loop body is a no-op
or an update result, never the final "DNS record not found" error. -/
lemma loopScan_fst_ne_notFound (u : Option String) (ip ty rr : String) :
    ∀ (l : List DNSRecord) (res : Option GoErr × List Call),
      loopScan u ip ty rr l = some res → res.1 ≠ some GoErr.notFound := by
  intro l
  induction l with
  | nil => intro res h; simp [loopScan] at h
  | cons x xs ih =>
    intro res h
    simp only [loopScan] at h
    by_cases hm : x.«Type» = ty ∧ x.RR = rr
    · rw [if_pos hm] at h
      by_cases hv : x.Value = ip
      · rw [if_pos hv] at h
        cases h
        simp
      · rw [if_neg hv] at h
        cases h
        cases u <;> simp
    · rw [if_neg hm] at h
      exact ih res h

/-- C10 (confirmed): `updateDNSRecord` never returns the final
`fmt.Errorf("DNS record not found")` value: `foundRecord` stays `false`,
so every execution either returns from inside the scan loop or takes the
create branch guarded by `!foundRecord`. -/
theorem updateDNSRecord_notFound_unreachable (g : Gateway)
    (dom ip ty rr : String) :
    (updateDNSRecord g dom ip ty rr).1 ≠ some GoErr.notFound := by
  obtain ⟨lr, u, c⟩ := g
  cases lr with
  | error msg => simp [updateDNSRecord]
  | ok records =>
    cases hs : loopScan u ip ty rr records with
    | none =>
      simp only [updateDNSRecord, hs]
      cases c <;> simp
    | some res =>
      have hne := loopScan_fst_ne_notFound u ip ty rr records res hs
      simp only [updateDNSRecord, hs]
      simpa using hne

/-- C4 (code bug): a zero delay with a recognized time unit passes
`getSleepDuration` without error, so `main` does not substitute the
1-minute default and hands `time.Sleep` a zero duration (busy loop); the
substitution only fires for an unrecognized unit. -/
theorem mainSleepDuration_zero_delay_no_substitution :
    getSleepDuration 0 "second" = Except.ok 0
    ∧ mainSleepDuration 0 "second" = 0
    ∧ mainSleepDuration 1 "fortnight" = 60000000000 :=
  ⟨rfl, rfl, rfl⟩

/-- A line starting with "Failed to update DNS record: " can never be the
success line, whatever the error message appended to it. -/
lemma failed_line_ne_success (msg : String) :
    "Failed to update DNS record: " ++ msg ≠ "DNS record updated successfully" := by
  intro h
  have h2 : ("Failed to update DNS record: " ++ msg).data.head? = some 'F' := rfl
  rw [h] at h2
  exact absurd h2 (by decide)

/-- C5 (counterexample): a cycle that updates an existing record and a
cycle that creates a new record send the identical line
"DNS record updated successfully" to the logging sink, so the Updated and
Created outcomes are not distinguishable there. -/
theorem cycleLogLine_updated_created_identical :
    cycleLogLine (updateDNSRecord
        ⟨.ok [⟨"id1", "*", "A", "1.2.3.4"⟩], none, none⟩
        "example.com" "5.6.7.8" "A" "*").1
      = cycleLogLine (updateDNSRecord ⟨.ok [], none, none⟩
          "example.com" "5.6.7.8" "A" "*").1
    ∧ (updateDNSRecord ⟨.ok [⟨"id1", "*", "A", "1.2.3.4"⟩], none, none⟩
        "example.com" "5.6.7.8" "A" "*").2
      = [Call.update "id1" "*" "A" "5.6.7.8"]
    ∧ (updateDNSRecord ⟨.ok [], none, none⟩
        "example.com" "5.6.7.8" "A" "*").2
      = [Call.create "example.com" "A" "*" "5.6.7.8"] := by
  decide

/-- C5 (amended): in the per-cycle line sent to the file logger,
NoUpdateNeeded (no line at all), Failed (a "Failed to update DNS record"
line carrying the reason) and success (the fixed success line) are
pairwise distinguishable; but Updated and Created both produce the same
success line, since both correspond to a nil error. -/
theorem cycleLogLine_classification (e : GoErr)
    (he : e ≠ GoErr.noUpdateNeeded) :
    cycleLogLine (some e) = some ("Failed to update DNS record: " ++ errMsg e)
    ∧ cycleLogLine (some GoErr.noUpdateNeeded) = none
    ∧ cycleLogLine none = some "DNS record updated successfully"
    ∧ cycleLogLine (some e) ≠ cycleLogLine (some GoErr.noUpdateNeeded)
    ∧ cycleLogLine (some e) ≠ cycleLogLine none := by
  have h1 : cycleLogLine (some e)
      = some ("Failed to update DNS record: " ++ errMsg e) := by
    cases e with
    | noUpdateNeeded => exact absurd rfl he
    | listErr msg => rfl
    | updateErr msg => rfl
    | createErr msg => rfl
    | notFound => rfl
  refine ⟨h1, rfl, rfl, ?_, ?_⟩
  · rw [h1]
    simp [cycleLogLine]
  · rw [h1]
    intro h
    rw [cycleLogLine] at h
    exact failed_line_ne_success (errMsg e) (Option.some.inj h)

/-- Witness for the amended C5 at the update error "boom". -/
theorem cycleLogLine_classification_witness :
    cycleLogLine (some (GoErr.updateErr "boom"))
      = some ("Failed to update DNS record: " ++ errMsg (GoErr.updateErr "boom"))
    ∧ cycleLogLine (some GoErr.noUpdateNeeded) = none
    ∧ cycleLogLine none = some "DNS record updated successfully"
    ∧ cycleLogLine (some (GoErr.updateErr "boom"))
        ≠ cycleLogLine (some GoErr.noUpdateNeeded)
    ∧ cycleLogLine (some (GoErr.updateErr "boom")) ≠ cycleLogLine none :=
  cycleLogLine_classification (GoErr.updateErr "boom") (by decide)

/-- C7 (confirmed): in a scheduler-loop iteration where IP resolution
fails, the failure line is written to the file logger, `updateDNSRecord`
is not invoked (no reconciliation, no mutating calls), and the iteration
still reaches the sleep step with the configured interval. -/
theorem runCycle_resolver_failure_skips (g : Gateway) (msg : String)
    (dom ty rr : String) (delay : Int) (timeUnit : String) :
    runCycle g (.error msg) dom ty rr delay timeUnit
      = { reconcilerInvoked := false
          calls := []
          logLine := some ("Failed to get public IP: " ++ msg)
          sleepNanos := mainSleepDuration delay timeUnit } := rfl

/-- C8 (confirmed): `getPublicIP` succeeds exactly on a status-200
response whose decoded JSON object has a string field "ip", returning that
string; a transport failure surfaces as the request error, any non-200
status yields the HTTP-status error, and a decoded object without a string
"ip" field yields the malformed-response error. -/
theorem getPublicIP_characterization (r : HttpResult) :
    ((∃ ip, getPublicIP r = Except.ok ip)
      ↔ ∃ fields ip, r = HttpResult.response 200 (HttpBody.obj fields)
          ∧ fields.lookup "ip" = some (JsonValue.str ip))
    ∧ (∀ msg, r = HttpResult.requestError msg →
        getPublicIP r = Except.error (IPError.requestFailed msg))
    ∧ (∀ status body, r = HttpResult.response status body → status ≠ 200 →
        getPublicIP r = Except.error (IPError.httpStatus status))
    ∧ (∀ fields, r = HttpResult.response 200 (HttpBody.obj fields) →
        (∀ ip, fields.lookup "ip" ≠ some (JsonValue.str ip)) →
        getPublicIP r = Except.error IPError.malformedResponse)
    ∧ (∀ fields ip, r = HttpResult.response 200 (HttpBody.obj fields) →
        fields.lookup "ip" = some (JsonValue.str ip) →
        getPublicIP r = Except.ok ip) := by
  refine ⟨?_, ?_, ?_, ?_, ?_⟩
  · constructor
    · rintro ⟨ip, hip⟩
      cases r with
      | requestError msg => simp [getPublicIP] at hip
      | response status body =>
        by_cases hs : status = 200
        · subst hs
          cases body with
          | decodeFailure m => simp [getPublicIP] at hip
          | obj fields =>
            refine ⟨fields, ip, rfl, ?_⟩
            simp only [getPublicIP, if_neg (by decide : ¬(200 ≠ 200))] at hip
            cases hl : fields.lookup "ip" with
            | none => rw [hl] at hip; simp at hip
            | some v =>
              cases v with
              | str s => rw [hl] at hip; simp at hip; rw [hip]
              | nonString => rw [hl] at hip; simp at hip
        · simp [getPublicIP, hs] at hip
    · rintro ⟨fields, ip, rfl, hl⟩
      exact ⟨ip, by simp [getPublicIP, hl]⟩
  · rintro msg rfl
    rfl
  · rintro status body rfl hs
    simp [getPublicIP, hs]
  · rintro fields rfl hl
    simp only [getPublicIP, if_neg (by decide : ¬(200 ≠ 200))]
  · rintro fields ip rfl hl
    simp [getPublicIP, hl]

/-- Witness for C8: a 200 response whose JSON object holds
ip = "203.0.113.7" resolves to that string. -/
theorem getPublicIP_characterization_witness :
    getPublicIP (HttpResult.response 200
        (HttpBody.obj [("ip", JsonValue.str "203.0.113.7")]))
      = Except.ok "203.0.113.7" :=
  (getPublicIP_characterization
      (HttpResult.response 200
        (HttpBody.obj [("ip", JsonValue.str "203.0.113.7")]))).2.2.2.2
    [("ip", JsonValue.str "203.0.113.7")] "203.0.113.7" rfl rfl

end DDns
